import Mathlib

/-!
Verification of the directive-based multi-agent coordination core of the
hevo-app repository (Python), as a shallow embedding in Lean 4.

Embedded modules (paths relative to the repository root):
  * src/hevo_assistant/agents/schemas.py       (ActionDirective, AgentActionResult)
  * src/hevo_assistant/agents/executor.py      (ExecutorAgent)
  * src/hevo_assistant/agents/coordinator.py   (CoordinatorAgent)
  * src/hevo_assistant/agents/orchestrator.py  (AgentOrchestrator)
  * src/hevo_assistant/agent/actions.py        (ActionExecutor)
  * src/hevo_assistant/agent/validator.py      (RequestValidator)
  * src/hevo_assistant/domain/capabilities.py  (capability registry)
  * src/hevo_assistant/domain/knowledge.py     (connector knowledge)

Modelling conventions:
  * Python dicts with JSON-like values are association lists
    `List (String × JVal)`; `dict.get(k)` is `pyGet`, which returns the
    value of the first matching key (Python dict keys are unique).
  * Python truthiness of optional / JSON values is made explicit via the
    `truthy` functions below (None, "", 0, False, [] and empty dicts are
    falsy, exactly as in Python).
  * The outward HTTP capability layer, the LLM client and the regex/JSON
    front end of the coordinator are external collaborators; they enter as
    explicit oracles (function arguments), never as stubs of logic that
    exists in the embedded files.
-/

namespace Hevo

/-- JSON-like values stored in the Python dicts that flow between the
agents (directive params, result payloads, error objects). -/
inductive JVal where
  | str (s : String)
  | num (n : Int)
  | boolean (b : Bool)
  | null
  | arr (elems : List JVal)
  | obj (fields : List (String × JVal))

/-- Python dict with string keys and JSON-like values. -/
abbrev PDict := List (String × JVal)

/-- Python `d.get(k)`: value of the first binding of `k`, if any. -/
def pyGet (d : PDict) (k : String) : Option JVal :=
  match d.find? (fun p => p.1 == k) with
  | some p => some p.2
  | none => none

/-- Python `k in d` for a dict `d`. -/
def pyHasKey (d : PDict) (k : String) : Bool :=
  d.any (fun p => p.1 == k)

/-- Python truthiness of a JSON value: "" , 0, False, null, empty list and
empty dict are falsy. -/
def JVal.truthy : JVal → Bool
  | .str s => !s.isEmpty
  | .num n => n != 0
  | .boolean b => b
  | .null => false
  | .arr xs => !xs.isEmpty
  | .obj fs => !fs.isEmpty

/-- Python truthiness of `d.get(k)` (None is falsy). -/
def truthyOptJ : Option JVal → Bool
  | some v => v.truthy
  | none => false

/-- Python truthiness of an `Optional[str]` value. -/
def truthyOptS : Option String → Bool
  | some s => !s.isEmpty
  | none => false

/-- Python `x or default` for an `Optional[str]` (falsy values replaced). -/
def pyOrS (o : Option String) (d : String) : String :=
  match o with
  | some s => if s.isEmpty then d else s
  | none => d

/-- Python `x or {}` for an `Optional[dict]` value. -/
def pyOrD (o : Option PDict) : PDict :=
  match o with
  | some l => l
  | none => []

/-- Keep an optional string only when it is truthy (used by `to_dict`,
which emits a key only under `if self.field:`). -/
def keepTruthyS : Option String → Option String
  | some s => if s.isEmpty then none else some s
  | none => none

/-- Keep an optional list-valued field only when it is truthy. -/
def keepTruthyL {α : Type} : Option (List α) → Option (List α)
  | some l => if l.isEmpty then none else some l
  | none => none

/-- Substring test on character lists (Python `needle in hay`). -/
def containsSub (needle : List Char) : List Char → Bool
  | [] => needle.isEmpty
  | c :: rest => needle.isPrefixOf (c :: rest) || containsSub needle rest

/-- Python `needle in hay` on strings. -/
def strContains (hay needle : String) : Bool :=
  containsSub needle.data hay.data

/-- Python `str.lower()`; characterwise ASCII lowering (every string any
verified property lowers is ASCII). -/
def pyToLower (s : String) : String :=
  ⟨s.data.map Char.toLower⟩

/-- Python `str.upper()`; characterwise ASCII raising. -/
def pyToUpper (s : String) : String :=
  ⟨s.data.map Char.toUpper⟩

/-- Whitespace stripped by Python `str.strip()`. -/
def isStripChar (c : Char) : Bool :=
  c == ' ' || c == '\t' || c == '\n' || c == '\r' || c == '\x0b' || c == '\x0c'

/-- Python `str.strip()`. -/
def pyStrip (s : String) : String :=
  ⟨((s.data.dropWhile isStripChar).reverse.dropWhile isStripChar).reverse⟩

/-- Python `str.replace(a, b)` for single-character `a` and `b`. -/
def replaceChar (a b : Char) (s : String) : String :=
  ⟨s.data.map (fun c => if c == a then b else c)⟩

/-- Code-point lexicographic order on character lists (the order of
Python `sorted` on strings). -/
def charListLe : List Char → List Char → Bool
  | [], _ => true
  | _ :: _, [] => false
  | a :: as, b :: bs => if a = b then charListLe as bs else decide (a < b)

/-- Python string comparison `a <= b`. -/
def strLe (a b : String) : Bool := charListLe a.data b.data

end Hevo

/-! ## agents/schemas.py -/

namespace Hevo

/-- `DirectiveType` enum from agents/schemas.py. -/
inductive DirectiveType where
  | execute
  | clarify
  | unsupported
  | info_only
deriving DecidableEq

/-- The `.value` string of each enum member. -/
def DirectiveType.value : DirectiveType → String
  | .execute => "execute"
  | .clarify => "clarify"
  | .unsupported => "unsupported"
  | .info_only => "info_only"

/-- Python `DirectiveType(s)`: enum decode, failing (ValueError) on any
other string. -/
def DirectiveType.ofValue? : String → Option DirectiveType
  | "execute" => some .execute
  | "clarify" => some .clarify
  | "unsupported" => some .unsupported
  | "info_only" => some .info_only
  | _ => none

/-- `ActionDirective` dataclass from agents/schemas.py.  Field defaults
follow the dataclass: `params` and `missing_params` default to empty
collections, the rest to None.  `missing_params` holds parameter-name
strings, as produced by `clarify` and consumed by the orchestrator. -/
structure ActionDirective where
  directive_type : DirectiveType
  action : Option String := none
  params : Option PDict := some []
  context : Option String := none
  question : Option String := none
  missing_params : Option (List String) := some []
  info_response : Option String := none

/-- The JSON wire dict for a directive: each field is present (`some`) or
absent (`none`).  Value types follow the wire contract of section 6 of the
spec; `to_dict` only ever emits these shapes. -/
structure DirectiveDict where
  directive_type : Option String := none
  action : Option String := none
  params : Option PDict := none
  context : Option String := none
  question : Option String := none
  missing_params : Option (List String) := none
  info_response : Option String := none

/-- `ActionDirective.to_dict`: always emits `directive_type`; every other
field is emitted only when truthy. -/
def ActionDirective.to_dict (d : ActionDirective) : DirectiveDict :=
  { directive_type := some d.directive_type.value
    action := keepTruthyS d.action
    params := keepTruthyL d.params
    context := keepTruthyS d.context
    question := keepTruthyS d.question
    missing_params := keepTruthyL d.missing_params
    info_response := keepTruthyS d.info_response }

/-- `ActionDirective.from_dict`: reads the discriminator with default
"execute" (raising, i.e. `none`, on an unknown value) and the tag fields
with their `data.get` defaults. -/
def ActionDirective.from_dict (data : DirectiveDict) : Option ActionDirective :=
  match DirectiveType.ofValue? ((data.directive_type).getD "execute") with
  | none => none
  | some ty =>
      some { directive_type := ty
             action := data.action
             params := some ((data.params).getD [])
             context := data.context
             question := data.question
             missing_params := some ((data.missing_params).getD [])
             info_response := data.info_response }

/-- `ActionDirective.execute` factory. -/
def ActionDirective.mkExecute (action : String) (params : PDict := [])
    (context : Option String := none) : ActionDirective :=
  { directive_type := .execute, action := some action, params := some params
    context := context }

/-- `ActionDirective.clarify` factory. -/
def ActionDirective.mkClarify (question : String)
    (missing_params : List String := []) : ActionDirective :=
  { directive_type := .clarify, question := some question
    missing_params := some missing_params }

/-- `ActionDirective.unsupported` factory. -/
def ActionDirective.mkUnsupported (message : String) : ActionDirective :=
  { directive_type := .unsupported, info_response := some message }

/-- `ActionDirective.info_only` factory. -/
def ActionDirective.mkInfoOnly (response : String) : ActionDirective :=
  { directive_type := .info_only, info_response := some response }

/-- `AgentActionResult` dataclass from agents/schemas.py. -/
structure AgentActionResult where
  success : Bool
  action_taken : String
  result : Option PDict := some []
  message : Option String := none
  error : Option PDict := some []
  suggestions : Option (List String) := some []

/-- The JSON wire dict for a result. -/
structure ResultDict where
  success : Option Bool := none
  action_taken : Option String := none
  result : Option PDict := none
  message : Option String := none
  error : Option PDict := none
  suggestions : Option (List String) := none

/-- `AgentActionResult.to_dict`: success and action_taken always; `result`
(defaulted to the empty dict) plus a truthy `message` on success, `error`
(defaulted to the empty dict) on failure; `suggestions` when truthy. -/
def AgentActionResult.to_dict (r : AgentActionResult) : ResultDict :=
  { success := some r.success
    action_taken := some r.action_taken
    result := if r.success then some (pyOrD r.result) else none
    message := if r.success then keepTruthyS r.message else none
    error := if r.success then none else some (pyOrD r.error)
    suggestions := keepTruthyL r.suggestions }

/-- `AgentActionResult.success_result` factory. -/
def AgentActionResult.mkSuccess (action : String) (result : PDict := [])
    (message : Option String := none) (suggestions : List String := []) :
    AgentActionResult :=
  { success := true, action_taken := action, result := some result
    message := message, suggestions := some suggestions }

/-- `AgentActionResult.error_result` factory. -/
def AgentActionResult.mkError (action code message : String) :
    AgentActionResult :=
  { success := false, action_taken := action
    error := some [("code", .str code), ("message", .str message)] }

end Hevo

/-! ## domain/knowledge.py -/

namespace Hevo

/-- `SOURCES` set from domain/knowledge.py (membership only; modelled as a
list in source order). -/
def SOURCES : List String :=
  [ "MYSQL", "POSTGRES", "MONGODB", "SQL_SERVER", "ORACLE", "DYNAMODB",
    "DOCUMENTDB", "ELASTICSEARCH", "MARIADB", "COCKROACHDB", "COUCHDB",
    "CASSANDRA", "FIRESTORE", "FIREBASE_REALTIME",
    "REDSHIFT", "BIGQUERY",
    "GOOGLE_ADS", "FACEBOOK_ADS", "HUBSPOT", "SALESFORCE_MARKETING_CLOUD",
    "MAILCHIMP", "LINKEDIN_ADS", "TIKTOK_ADS", "SNAPCHAT_ADS",
    "PINTEREST_ADS", "TWITTER_ADS", "MICROSOFT_ADS", "KLAVIYO",
    "ACTIVECAMPAIGN", "SENDGRID", "BRAZE", "ITERABLE", "MARKETO", "PARDOT",
    "SALESFORCE", "ZENDESK", "FRESHDESK", "INTERCOM", "PIPEDRIVE",
    "HUBSPOT_CRM", "OUTREACH", "FRONT", "CLOSE", "COPPER", "ZOHO_CRM",
    "SHOPIFY", "WOOCOMMERCE", "STRIPE", "AMPLITUDE", "MIXPANEL", "SEGMENT",
    "PENDO", "BIGCOMMERCE", "MAGENTO", "RECHARGE", "GORGIAS",
    "GITHUB", "GITLAB", "JIRA", "ASANA", "TRELLO", "PAGERDUTY", "OPSGENIE",
    "DATADOG", "NEW_RELIC", "CLICKUP", "MONDAY", "NOTION",
    "BRAINTREE", "CHARGEBEE", "RECURLY", "QUICKBOOKS", "XERO", "NETSUITE",
    "ZUORA", "SQUARE", "PAYPAL",
    "GOOGLE_ANALYTICS", "GOOGLE_ANALYTICS_4", "FACEBOOK_INSIGHTS",
    "INSTAGRAM_INSIGHTS", "YOUTUBE_ANALYTICS", "LINKEDIN_PAGES",
    "TWITTER_ANALYTICS", "APPSFLYER", "ADJUST", "BRANCH",
    "S3", "GCS", "AZURE_BLOB", "SFTP", "FTP", "GOOGLE_SHEETS",
    "GOOGLE_DRIVE", "DROPBOX", "BOX", "ONEDRIVE",
    "KAFKA", "WEBHOOKS", "REST_API", "ANDROID_SDK", "IOS_SDK",
    "JAVASCRIPT_SDK", "KINESIS", "PUBSUB",
    "WORKDAY", "BAMBOOHR", "GREENHOUSE", "LEVER", "NAMELY", "GUSTO",
    "SLACK", "ZOOM", "MICROSOFT_TEAMS" ]

/-- `DESTINATIONS` set from domain/knowledge.py. -/
def DESTINATIONS : List String :=
  [ "SNOWFLAKE", "BIGQUERY", "REDSHIFT", "DATABRICKS", "POSTGRES", "MYSQL",
    "AURORA", "MS_SQL", "AZURE_SYNAPSE", "S3", "GCS", "FIREBOLT",
    "CLICKHOUSE" ]

/-- `BIDIRECTIONAL` set from domain/knowledge.py. -/
def BIDIRECTIONAL : List String :=
  [ "POSTGRES", "MYSQL", "REDSHIFT", "BIGQUERY", "S3", "GCS" ]

/-- `DESTINATION_ONLY = DESTINATIONS - BIDIRECTIONAL` (set difference). -/
def DESTINATION_ONLY : List String :=
  DESTINATIONS.filter (fun d => !BIDIRECTIONAL.contains d)

/-- Insertion of a string into a sorted list (helper for Python `sorted`). -/
def insertSorted (s : String) : List String → List String
  | [] => [s]
  | x :: xs => if strLe s x then s :: x :: xs else x :: insertSorted s xs

/-- Python `sorted` on a list of strings. -/
def sortStrings : List String → List String
  | [] => []
  | x :: xs => insertSorted x (sortStrings xs)

/-- `normalize_connector_name` from domain/knowledge.py:
`name.upper().strip().replace(" ", "_").replace("-", "_")`. -/
def normalize_connector_name (name : String) : String :=
  replaceChar '-' '_' (replaceChar ' ' '_' (pyStrip (pyToUpper name)))

/-- `validate_pipeline_direction` from domain/knowledge.py. -/
def validate_pipeline_direction (source_type destination_type : String) :
    Bool × String :=
  if source_type.isEmpty || destination_type.isEmpty then
    (false, "Both source and destination types are required.")
  else
    let source_normalized := normalize_connector_name source_type
    let dest_normalized := normalize_connector_name destination_type
    if DESTINATION_ONLY.contains source_normalized then
      (false, source_type ++
        " can only be used as a destination, not as a source. " ++
        "Hevo does not support " ++ source_type ++ " as a data source.")
    else if !SOURCES.contains source_normalized then
      (false, source_type ++ " is not a supported source type. " ++
        "Please check the Hevo documentation for supported sources.")
    else if !DESTINATIONS.contains dest_normalized then
      (false, destination_type ++ " is not a supported destination type. " ++
        "Supported destinations: " ++
        String.intercalate ", " ((sortStrings DESTINATIONS).take 5) ++ "...")
    else
      (true, "Valid pipeline configuration.")

end Hevo

/-! ## domain/capabilities.py -/

namespace Hevo

/-- `Parameter` dataclass from domain/capabilities.py.  The `description`,
`param_type` and `example` fields carry no validation semantics and are
omitted; `name` and `required` are the fields every verified property
reads. -/
structure Parameter where
  name : String
  required : Bool
deriving DecidableEq

/-- `ActionDefinition` dataclass from domain/capabilities.py, restricted to
the fields with validation semantics (`name`, `parameters`, `implemented`);
description/category/method/endpoint/examples/follow_ups are display-only. -/
structure ActionDefinition where
  name : String
  parameters : List Parameter
  implemented : Bool := true
deriving DecidableEq

/-- The `CAPABILITIES` registry, in source order.  Every entry of the
Python dict has `implemented=True` (explicitly or by dataclass default). -/
def CAPABILITIES : List ActionDefinition :=
  [ ⟨"list_pipelines", [⟨"status", false⟩], true⟩,
    ⟨"get_pipeline", [⟨"name", false⟩, ⟨"id", false⟩], true⟩,
    ⟨"create_pipeline",
      [⟨"source_type", true⟩, ⟨"source_config", true⟩,
       ⟨"destination_id", true⟩, ⟨"name", false⟩], true⟩,
    ⟨"delete_pipeline",
      [⟨"id", true⟩, ⟨"name", false⟩, ⟨"confirmed", true⟩], true⟩,
    ⟨"pause_pipeline", [⟨"name", false⟩, ⟨"id", false⟩], true⟩,
    ⟨"resume_pipeline", [⟨"name", false⟩, ⟨"id", false⟩], true⟩,
    ⟨"run_pipeline", [⟨"name", false⟩, ⟨"id", false⟩], true⟩,
    ⟨"update_pipeline_schedule",
      [⟨"id", false⟩, ⟨"name", false⟩, ⟨"schedule", true⟩], true⟩,
    ⟨"update_pipeline_priority",
      [⟨"id", false⟩, ⟨"name", false⟩, ⟨"priority", true⟩], true⟩,
    ⟨"get_pipeline_schedule", [⟨"id", false⟩, ⟨"name", false⟩], true⟩,
    ⟨"list_objects", [⟨"pipeline_name", false⟩, ⟨"pipeline_id", false⟩], true⟩,
    ⟨"pause_object", [⟨"pipeline_id", true⟩, ⟨"object_name", true⟩], true⟩,
    ⟨"resume_object", [⟨"pipeline_id", true⟩, ⟨"object_name", true⟩], true⟩,
    ⟨"skip_object", [⟨"pipeline_id", true⟩, ⟨"object_name", true⟩], true⟩,
    ⟨"include_object", [⟨"pipeline_id", true⟩, ⟨"object_name", true⟩], true⟩,
    ⟨"get_object", [⟨"pipeline_id", true⟩, ⟨"object_name", true⟩], true⟩,
    ⟨"restart_object", [⟨"pipeline_id", true⟩, ⟨"object_name", true⟩], true⟩,
    ⟨"get_transformation",
      [⟨"pipeline_id", true⟩, ⟨"pipeline_name", false⟩], true⟩,
    ⟨"update_transformation", [⟨"pipeline_id", true⟩, ⟨"code", true⟩], true⟩,
    ⟨"test_transformation",
      [⟨"pipeline_id", true⟩, ⟨"sample_data", false⟩], true⟩,
    ⟨"get_schema_mapping",
      [⟨"pipeline_id", true⟩, ⟨"event_type", true⟩], true⟩,
    ⟨"update_schema_mapping",
      [⟨"pipeline_id", true⟩, ⟨"event_type", true⟩, ⟨"mapping", true⟩], true⟩,
    ⟨"update_auto_mapping", [⟨"pipeline_id", true⟩, ⟨"enabled", true⟩], true⟩,
    ⟨"list_event_types",
      [⟨"pipeline_id", true⟩, ⟨"pipeline_name", false⟩], true⟩,
    ⟨"skip_event_type", [⟨"pipeline_id", true⟩, ⟨"event_type", true⟩], true⟩,
    ⟨"include_event_type",
      [⟨"pipeline_id", true⟩, ⟨"event_type", true⟩], true⟩,
    ⟨"list_destinations", [], true⟩,
    ⟨"get_destination", [⟨"id", false⟩, ⟨"name", false⟩], true⟩,
    ⟨"create_destination",
      [⟨"type", true⟩, ⟨"name", true⟩, ⟨"config", true⟩], true⟩,
    ⟨"get_destination_stats",
      [⟨"destination_id", true⟩, ⟨"table_name", true⟩], true⟩,
    ⟨"load_destination", [⟨"destination_id", true⟩], true⟩,
    ⟨"list_models", [], true⟩,
    ⟨"get_model", [⟨"id", false⟩, ⟨"name", false⟩], true⟩,
    ⟨"create_model",
      [⟨"destination_id", true⟩, ⟨"query", true⟩, ⟨"name", true⟩,
       ⟨"target_table", false⟩, ⟨"load_type", false⟩], true⟩,
    ⟨"update_model",
      [⟨"id", false⟩, ⟨"name", false⟩, ⟨"new_name", false⟩,
       ⟨"query", false⟩, ⟨"target_table", false⟩], true⟩,
    ⟨"delete_model",
      [⟨"id", false⟩, ⟨"name", false⟩, ⟨"confirmed", true⟩], true⟩,
    ⟨"pause_model", [⟨"id", false⟩, ⟨"name", false⟩], true⟩,
    ⟨"resume_model", [⟨"id", false⟩, ⟨"name", false⟩], true⟩,
    ⟨"run_model", [⟨"name", false⟩, ⟨"id", false⟩], true⟩,
    ⟨"reset_model",
      [⟨"id", false⟩, ⟨"name", false⟩, ⟨"confirmed", true⟩], true⟩,
    ⟨"list_workflows", [], true⟩,
    ⟨"get_workflow", [⟨"id", false⟩, ⟨"name", false⟩], true⟩,
    ⟨"run_workflow", [⟨"name", false⟩, ⟨"id", false⟩], true⟩,
    ⟨"list_users", [], true⟩,
    ⟨"invite_user", [⟨"email", true⟩, ⟨"role", false⟩], true⟩,
    ⟨"update_user_role", [⟨"user_id", true⟩, ⟨"role", true⟩], true⟩,
    ⟨"delete_user", [⟨"user_id", true⟩, ⟨"confirmed", true⟩], true⟩,
    ⟨"list_oauth_accounts", [], true⟩,
    ⟨"get_oauth_account", [⟨"id", true⟩], true⟩,
    ⟨"remove_oauth_account", [⟨"id", true⟩, ⟨"confirmed", true⟩], true⟩ ]

/-- `get_action_definition` (dict lookup `CAPABILITIES.get`). -/
def get_action_definition (action_name : String) : Option ActionDefinition :=
  CAPABILITIES.find? (fun a => a.name == action_name)

/-- The per-parameter missing test inside `get_missing_prerequisites`: a
required parameter is missing when its name is not a provided key and the
name/id substitution does not rescue it. -/
def missingParam (provided : PDict) (param : Parameter) : Bool :=
  param.required && !pyHasKey provided param.name &&
    !((param.name == "name" || param.name == "id") &&
      pyHasKey provided (if param.name == "name" then "id" else "name"))

/-- `get_missing_prerequisites` from domain/capabilities.py. -/
def get_missing_prerequisites (action_name : String) (provided : PDict) :
    List Parameter :=
  match get_action_definition action_name with
  | none => []
  | some action => action.parameters.filter (missingParam provided)

end Hevo

/-! ## agent/validator.py

`check_unsupported` runs `re.search` over an ordered list of patterns.  The
seven patterns use only word boundaries, literal alternation, `\s+`,
optional groups and `.{0,20}`, so they are embedded with a small
continuation-passing matcher over character lists; `Matcher` threads the
previous character so that word boundaries are exact.  `reSearch` tries
every start position, like `re.search`. -/

namespace Hevo

/-- A matcher takes the character preceding the current position, the rest
of the input, and a continuation receiving both after the match. -/
abbrev Matcher := Option Char → List Char → (Option Char → List Char → Bool) → Bool

/-- Match a literal character sequence. -/
def mlit : List Char → Matcher
  | [], prev, input, k => k prev input
  | c :: cs, _, input, k =>
      match input with
      | [] => false
      | c' :: rest => c == c' && mlit cs (some c') rest k

/-- Literal string matcher. -/
def mlitS (s : String) : Matcher := mlit s.data

/-- Sequencing of two matchers. -/
def mseq (a b : Matcher) : Matcher :=
  fun prev input k => a prev input (fun p r => b p r k)

/-- Alternation (regex `x|y`). -/
def malt (a b : Matcher) : Matcher :=
  fun prev input k => a prev input k || b prev input k

/-- Optional group (regex `(x)?`). -/
def mopt (a : Matcher) : Matcher :=
  fun prev input k => k prev input || a prev input k

/-- Python regex `\w` over the lowercased ASCII text the validator scans. -/
def isWordChar (c : Char) : Bool := c.isAlphanum || c == '_'

/-- Python regex `\s`. -/
def isSpaceChar (c : Char) : Bool :=
  c == ' ' || c == '\t' || c == '\n' || c == '\r' || c == '\x0b' || c == '\x0c'

/-- Any character, as matched by `.` without DOTALL. -/
def isDotChar (c : Char) : Bool := c != '\n'

/-- Word boundary (regex `\b`): word-ness differs between the previous and
the next character (string edges count as non-word). -/
def mWordBoundary : Matcher :=
  fun prev input k =>
    let prevW := match prev with | some c => isWordChar c | none => false
    let nextW := match input with | c :: _ => isWordChar c | [] => false
    (prevW != nextW) && k prev input

/-- Zero or more characters of a class, trying every count (regex `x*`). -/
def mclsStar (p : Char → Bool) (prev : Option Char) :
    List Char → (Option Char → List Char → Bool) → Bool
  | [], k => k prev []
  | c :: rest, k =>
      k prev (c :: rest) || (p c && mclsStar p (some c) rest k)

/-- One or more characters of a class (regex `x+`). -/
def mclsPlus (p : Char → Bool) : Matcher :=
  fun _ input k =>
    match input with
    | [] => false
    | c :: rest => p c && mclsStar p (some c) rest k

/-- Up to `n` characters of a class (regex bounded repetition). -/
def mclsUpTo (p : Char → Bool) : Nat → Matcher
  | 0 => fun prev input k => k prev input
  | n + 1 => fun prev input k =>
      k prev input ||
        (match input with
         | [] => false
         | c :: rest => p c && mclsUpTo p n (some c) rest k)

/-- Try the matcher at every start position (Python `re.search`). -/
def searchFrom (m : Matcher) (prev : Option Char) : List Char → Bool
  | [] => m prev [] (fun _ _ => true)
  | c :: rest => m prev (c :: rest) (fun _ _ => true) || searchFrom m (some c) rest

/-- `re.search(pattern, s)` as a Boolean. -/
def reSearch (m : Matcher) (s : String) : Bool := searchFrom m none s.data

/-- Regex for destination deletion requests. -/
def patDeleteDestination : Matcher :=
  mseq mWordBoundary
    (mseq (malt (mlitS "delete") (mlitS "remove"))
      (mseq (mclsPlus isSpaceChar)
        (mseq (mopt (mseq (mlitS "my") (mclsPlus isSpaceChar)))
          (mlitS "destination"))))

/-- Regex for password change requests. -/
def patPassword : Matcher :=
  mseq mWordBoundary
    (mseq (malt (mlitS "change") (malt (mlitS "update") (mlitS "reset")))
      (mseq (mclsPlus isSpaceChar)
        (mseq (mopt (mseq (mlitS "my") (mclsPlus isSpaceChar)))
          (mlitS "password"))))

/-- Regex for billing requests. -/
def patBilling : Matcher :=
  mseq mWordBoundary
    (malt (mlitS "billing")
      (malt (mlitS "invoice")
        (malt (mlitS "payment")
          (malt (mlitS "subscription") (mlitS "plan")))))

/-- Regex for data export requests. -/
def patExport : Matcher :=
  mseq mWordBoundary
    (mseq (malt (mlitS "export") (mlitS "download"))
      (mseq (mclsPlus isSpaceChar)
        (mseq (mopt (mseq (mlitS "my") (mclsPlus isSpaceChar)))
          (mlitS "data"))))

/-- Regex for Snowflake appearing near the word source. -/
def patSnowflakeSource : Matcher :=
  mseq mWordBoundary
    (mseq (mlitS "snowflake")
      (mseq mWordBoundary
        (mseq (mclsUpTo isDotChar 20)
          (mseq mWordBoundary
            (mseq (mopt (mseq (mlitS "as") (mclsPlus isSpaceChar)))
              (mseq (mlitS "source") mWordBoundary))))))

/-- Regex for pipelines from Snowflake. -/
def patFromSnowflake : Matcher :=
  mseq mWordBoundary
    (mseq (mlitS "from")
      (mseq (mclsPlus isSpaceChar)
        (mseq (mlitS "snowflake") mWordBoundary)))

/-- Regex for Databricks appearing near the word source. -/
def patDatabricksSource : Matcher :=
  mseq mWordBoundary
    (mseq (mlitS "databricks")
      (mseq mWordBoundary
        (mseq (mclsUpTo isDotChar 20)
          (mseq mWordBoundary
            (mseq (mopt (mseq (mlitS "as") (mclsPlus isSpaceChar)))
              (mseq (mlitS "source") mWordBoundary))))))

/-- `UNSUPPORTED_PATTERNS` from agent/validator.py: ordered pattern/message
pairs. -/
def UNSUPPORTED_PATTERNS : List (Matcher × String) :=
  [ (patDeleteDestination,
     "Deleting destinations is not available via the API for safety reasons. " ++
     "Please use the Hevo dashboard to delete destinations."),
    (patPassword,
     "Password changes are not supported via the API. " ++
     "Please use the Hevo dashboard or the password reset feature."),
    (patBilling,
     "Billing and subscription management is not available via the API. " ++
     "Please visit the Hevo dashboard or contact support."),
    (patExport,
     "Direct data export is not supported. Your data is synced to your " ++
     "destination where you can query it directly."),
    (patSnowflakeSource,
     "Snowflake cannot be used as a data source. " ++
     "It\x27s only supported as a destination. " ++
     "Check docs.hevodata.com for supported source connectors."),
    (patFromSnowflake,
     "Snowflake cannot be used as a source connector. " ++
     "Hevo supports Snowflake only as a destination."),
    (patDatabricksSource,
     "Databricks cannot be used as a data source. " ++
     "It\x27s only supported as a destination.") ]

/-- The first-match loop of `check_unsupported`. -/
def firstMatchMessage : List (Matcher × String) → String → Option String
  | [], _ => none
  | (pat, message) :: rest, q =>
      if reSearch pat q then some message else firstMatchMessage rest q

/-- `RequestValidator.check_unsupported`: lowercase the query, return the
message of the first matching pattern, else None. -/
def check_unsupported (query : String) : Option String :=
  firstMatchMessage UNSUPPORTED_PATTERNS (pyToLower query)

/-- `params.get(k, "")` restricted to the string-typed values that the
create-pipeline gate consumes (a non-string value there would raise inside
Python before any verdict is produced). -/
def pyGetStr (d : PDict) (k : String) : String :=
  match pyGet d k with
  | some (.str s) => s
  | _ => ""

/-- `RequestValidator.validate_action` from agent/validator.py. -/
def validate_action (action_name : String) (params : PDict) :
    Bool × Option String × List Parameter :=
  match get_action_definition action_name with
  | none =>
      (false,
       some ("Unknown action \x27" ++ action_name ++
         "\x27. Some available actions: " ++
         String.intercalate ", "
           ((sortStrings (CAPABILITIES.map (fun a => a.name))).take 5) ++
         "..."),
       [])
  | some action =>
      if !action.implemented then
        (false,
         some ("The \x27" ++ action_name ++
           "\x27 action is not yet available via the API. " ++
           "This feature is coming soon!"),
         [])
      else
        let missing := get_missing_prerequisites action_name params
        if !missing.isEmpty then (false, none, missing)
        else if action_name == "create_pipeline" then
          let source := pyGetStr params "source_type"
          let dest := pyGetStr params "destination_type"
          if !source.isEmpty && !dest.isEmpty then
            let v := validate_pipeline_direction source dest
            if !v.1 then (false, some v.2, []) else (true, none, [])
          else (true, none, [])
        else (true, none, [])

end Hevo

/-! ## agent/actions.py

The per-action handlers call the Hevo HTTP API, which is an external
collaborator; a `CapabilityOracle` stands for the behaviour of the handler
dispatched for an action (it may return an `ActionResult`, raise a typed
`APIError`, or raise any other exception). -/

namespace Hevo

/-- The keys of `ActionExecutor.ACTIONS` (registered handler names), in
registration order. -/
def ACTIONS : List String :=
  [ "list_pipelines", "get_pipeline", "create_pipeline", "delete_pipeline",
    "pause_pipeline", "resume_pipeline", "run_pipeline",
    "update_pipeline_priority", "get_pipeline_schedule",
    "update_pipeline_schedule", "get_pipeline_position",
    "update_pipeline_position", "update_pipeline_source",
    "list_objects", "get_object", "pause_object", "resume_object",
    "skip_object", "include_object", "restart_object",
    "get_object_position", "update_object_position", "get_object_stats",
    "get_object_query_mode", "update_object_query_mode",
    "list_destinations", "get_destination", "create_destination",
    "update_destination", "get_destination_stats", "load_destination",
    "list_models", "get_model", "create_model", "update_model",
    "delete_model", "run_model", "pause_model", "resume_model",
    "reset_model", "update_model_schedule",
    "list_workflows", "get_workflow", "run_workflow",
    "get_transformation", "update_transformation", "test_transformation",
    "get_transformation_sample",
    "list_event_types", "skip_event_type", "include_event_type",
    "update_auto_mapping", "get_schema_mapping", "update_schema_mapping",
    "list_users", "invite_user", "update_user_role", "delete_user",
    "list_oauth_accounts", "get_oauth_account", "remove_oauth_account" ]

/-- The `data` payload of an `ActionResult` (Optional[Any] in Python): a
dataclass-style object carrying a `__dict__`, a raw dict, a list, or
nothing. -/
inductive ActionData where
  | noData
  | objData (fields : PDict)
  | dictData (d : PDict)
  | listData (xs : List JVal)

/-- `ActionResult` dataclass from agent/actions.py. -/
structure ActionResult where
  success : Bool
  message : String
  data : ActionData := .noData

/-- Behaviour of the capability-layer handler dispatched for an action:
normal return, a raised `APIError` carrying a message, or any other
exception. -/
inductive HandlerOutcome where
  | ret (r : ActionResult)
  | raiseAPI (message : String)
  | raiseExc (message : String)

/-- Oracle giving the capability layer behaviour per action and params. -/
abbrev CapabilityOracle := String → PDict → HandlerOutcome

/-- `ActionExecutor.execute` from agent/actions.py: checks the action name,
dispatches, and absorbs raised errors into failure `ActionResult`s
(`APIError` is prefixed with "API error: ", any other exception with
"Error executing action: "). -/
def ActionExecutor.exec (cap : CapabilityOracle) (action_name : Option String)
    (params : PDict) : ActionResult :=
  if !truthyOptS action_name then
    { success := false, message := "No action specified" }
  else
    let a := action_name.getD ""
    if !ACTIONS.contains a then
      { success := false, message := "Unknown action: " ++ a }
    else
      match cap a params with
      | .ret r => r
      | .raiseAPI m => { success := false, message := "API error: " ++ m }
      | .raiseExc m =>
          { success := false, message := "Error executing action: " ++ m }

end Hevo

/-! ## agents/executor.py -/

namespace Hevo

/-- `id_actions` inside `ExecutorAgent.validate_directive`: actions that
need a name or id. -/
def id_actions : List String :=
  [ "get_pipeline", "pause_pipeline", "resume_pipeline", "run_pipeline",
    "run_model", "run_workflow" ]

/-- `object_actions` inside `ExecutorAgent.validate_directive`. -/
def object_actions : List String :=
  [ "skip_object", "restart_object", "pause_object", "resume_object" ]

/-- `ExecutorAgent.validate_directive` from agents/executor.py. -/
def ExecutorAgent.validate_directive (d : ActionDirective) :
    Bool × Option String :=
  if d.directive_type ≠ .execute then
    (false, some ("Cannot execute directive of type: " ++ d.directive_type.value))
  else if !truthyOptS d.action then
    (false, some "No action specified")
  else
    let a := d.action.getD ""
    if !ACTIONS.contains a then
      (false, some ("Unknown action: " ++ a))
    else
      let params := pyOrD d.params
      if id_actions.contains a && !truthyOptJ (pyGet params "name") &&
          !truthyOptJ (pyGet params "id") then
        (false, some ("Pipeline/resource name or ID is required for " ++ a))
      else if object_actions.contains a &&
          !truthyOptJ (pyGet params "pipeline_id") &&
          !truthyOptJ (pyGet params "pipeline_name") then
        (false, some "Pipeline ID or name is required")
      else if object_actions.contains a &&
          !truthyOptJ (pyGet params "object_name") then
        (false, some "Object name is required")
      else
        (true, none)

/-- The `action_suggestions` table inside `ExecutorAgent._get_suggestions`. -/
def action_suggestions : List (String × List String) :=
  [ ("list_pipelines",
     ["View details of a specific pipeline", "Run a pipeline immediately"]),
    ("get_pipeline",
     ["List objects in this pipeline", "Run the pipeline now",
      "Pause the pipeline"]),
    ("pause_pipeline",
     ["Resume the pipeline when ready", "Check pipeline status"]),
    ("resume_pipeline",
     ["Run the pipeline immediately", "Check pipeline status"]),
    ("run_pipeline",
     ["Check pipeline status", "List objects being synced"]),
    ("list_objects",
     ["Skip an object from syncing", "Restart an object"]),
    ("skip_object",
     ["Include the object again later", "List all objects"]),
    ("restart_object",
     ["Check object status", "List all objects"]),
    ("list_destinations", ["View destination details"]),
    ("list_models", ["Run a model"]),
    ("run_model", ["List models to see status"]),
    ("list_workflows", ["Run a workflow"]),
    ("run_workflow", ["List workflows to see status"]) ]

/-- `ExecutorAgent._get_suggestions` (the `result_data` argument is unused
by the source and kept for shape fidelity). -/
def ExecutorAgent.get_suggestions (action : String) (success : Bool)
    (_result_data : PDict) : List String :=
  if !success then []
  else
    (((action_suggestions.find? (fun p => p.1 == action)).map
        (fun p => p.2)).getD []).take 3

/-- The error-code derivation inside `ExecutorAgent._convert_result`:
case-insensitive substring matching on the failure message. -/
def parseErrorCode (error_message : String) : String :=
  let lower := pyToLower error_message
  if strContains lower "not found" then "NOT_FOUND"
  else if strContains lower "permission" then "PERMISSION_DENIED"
  else if strContains lower "already" then "ALREADY_EXISTS"
  else "API_ERROR"

/-- `ExecutorAgent._convert_result` from agents/executor.py.  The success
branch flattens `result.data` after Python truthiness (`if result.data:`);
custom objects are always truthy. -/
def ExecutorAgent.convert_result (action : String) (result : ActionResult) :
    AgentActionResult :=
  if result.success then
    let result_data : PDict :=
      match result.data with
      | .noData => []
      | .objData fields => fields
      | .dictData d => if d.isEmpty then [] else d
      | .listData xs =>
          if xs.isEmpty then []
          else [("items", .arr xs), ("count", .num xs.length)]
    let suggestions :=
      ExecutorAgent.get_suggestions action result.success result_data
    AgentActionResult.mkSuccess action result_data (some result.message)
      suggestions
  else
    AgentActionResult.mkError action (parseErrorCode result.message)
      result.message

/-- `ExecutorAgent.execute` from agents/executor.py.  The outer
`except Exception` branch (EXECUTION_ERROR) is unreachable through the
embedded flow because `ActionExecutor.execute` already absorbs every
handler exception. -/
def ExecutorAgent.execute (cap : CapabilityOracle) (d : ActionDirective) :
    AgentActionResult :=
  if d.directive_type ≠ .execute then
    AgentActionResult.mkError "unknown" "INVALID_DIRECTIVE"
      ("Cannot execute directive of type: " ++ d.directive_type.value)
  else if !truthyOptS d.action then
    AgentActionResult.mkError "unknown" "MISSING_ACTION"
      "No action specified in directive"
  else
    let action := d.action.getD ""
    if !ACTIONS.contains action then
      AgentActionResult.mkError action "UNKNOWN_ACTION"
        ("Unknown action: " ++ action)
    else
      ExecutorAgent.convert_result action
        (ActionExecutor.exec cap (some action) (pyOrD d.params))

end Hevo

/-! ## agents/coordinator.py

The LLM client is an external collaborator (`LLMOutcome`); the three-stage
regex-and-json extraction over the raw LLM text is a front end whose output
is the ordered list of JSON-parseable candidate blocks, supplied as an
oracle to `parse_directive` (the loop then takes the first candidate whose
directive decodes, and otherwise falls through to the text heuristics,
exactly as the source loop does via try/continue). -/

namespace Hevo

/-- Behaviour of `self.llm.chat`: returned text, or a raised exception. -/
inductive LLMOutcome where
  | ok (text : String)
  | exc (error : String)

/-- The clarification cue words of `CoordinatorAgent._parse_directive`. -/
def clarification_cues : List String :=
  ["which", "what", "please specify", "could you"]

/-- The refusal / unsupported cue words of
`CoordinatorAgent._parse_directive`. -/
def unsupported_cues : List String :=
  ["cannot", "not supported", "not available", "sorry"]

/-- `CoordinatorAgent._parse_directive`: first decodable JSON candidate
wins; with no candidate left, classify the raw text by cue words. -/
def CoordinatorAgent.parse_directive (candidates : List DirectiveDict)
    (response : String) : ActionDirective :=
  match candidates with
  | data :: rest =>
      match ActionDirective.from_dict data with
      | some d => d
      | none => CoordinatorAgent.parse_directive rest response
  | [] =>
      let response_lower := pyToLower response
      if clarification_cues.any (fun q => strContains response_lower q) then
        ActionDirective.mkClarify response ["unknown"]
      else if unsupported_cues.any (fun u => strContains response_lower u) then
        ActionDirective.mkUnsupported response
      else
        ActionDirective.mkInfoOnly response

/-- `CoordinatorAgent.process`, from the LLM call on (prompt construction
has no bearing on the returned directive's shape): absorb an LLM exception
into an UNSUPPORTED directive, otherwise parse the response text. -/
def CoordinatorAgent.process (extract : String → List DirectiveDict)
    (llm : LLMOutcome) : ActionDirective :=
  match llm with
  | .exc e =>
      ActionDirective.mkUnsupported
        ("I\x27m having trouble understanding right now. Error: " ++ e)
  | .ok response => CoordinatorAgent.parse_directive (extract response) response

end Hevo

/-! ## agents/orchestrator.py -/

namespace Hevo

/-- Python `str()` as used in f-strings, for the value shapes that reach
the response formatter (the `status` value is a string on every source
path; container values never reach an f-string in the embedded flow and
render with a marker). -/
def JVal.fstr : JVal → String
  | .str s => s
  | .num n => toString n
  | .boolean b => if b then "True" else "False"
  | .null => "None"
  | .arr _ => "<list>"
  | .obj _ => "<dict>"

/-- `AgentOrchestrator._format_response` from agents/orchestrator.py. -/
def AgentOrchestrator.format_response (d : ActionDirective)
    (result : AgentActionResult) : String :=
  let lines :=
    if result.success then
      let lines :=
        if truthyOptS result.message then [result.message.getD ""]
        else
          ["Action \x27" ++ d.action.getD "None" ++
           "\x27 completed successfully!"]
      let rres := pyOrD result.result
      let lines := lines ++
        (if !rres.isEmpty then
          (if ["list_pipelines", "list_destinations", "list_models",
               "list_workflows"].contains (d.action.getD "None") then []
           else
             match pyGet rres "status" with
             | some v => ["\nStatus: " ++ v.fstr]
             | none => [])
         else [])
      let sugg := (result.suggestions).getD []
      lines ++
        (if !sugg.isEmpty then
          "\nYou might want to:" :: (sugg.take 3).map (fun s => "  - " ++ s)
         else [])
    else
      let error := pyOrD result.error
      let error_msg :=
        match pyGet error "message" with
        | some v => v.fstr
        | none => "Something went wrong."
      let error_code :=
        match pyGet error "code" with
        | some v => v.fstr
        | none => "ERROR"
      ["Error (" ++ error_code ++ "): " ++ error_msg] ++
        (if error_code == "NOT_FOUND" then
          "\nTip: You can list available resources first:" ::
            (let al := pyToLower (d.action.getD "None")
             if strContains al "pipeline" then ["  - \"List my pipelines\""]
             else if strContains al "model" then ["  - \"List my models\""]
             else if strContains al "workflow" then ["  - \"List my workflows\""]
             else [])
         else [])
  String.intercalate "\n" lines

/-- `AgentOrchestrator.process` from the directive branch on (step 2 of the
source: the Coordinator has already produced `d`; the Executor's `execute`
enters through the capability oracle).  Returns the response text together
with whether `executor.execute` was invoked. -/
def AgentOrchestrator.process_directive (cap : CapabilityOracle)
    (d : ActionDirective) : String × Bool :=
  if d.directive_type = .clarify then
    (pyOrS d.question "Could you please provide more details?", false)
  else if d.directive_type = .unsupported then
    ("I\x27m sorry, " ++ pyOrS d.info_response "that action is not supported.",
     false)
  else if d.directive_type = .info_only then
    (pyOrS d.info_response "", false)
  else
    let v := ExecutorAgent.validate_directive d
    if !v.1 then
      ("I couldn\x27t execute that action: " ++
        (match v.2 with | some e => e | none => "None"), false)
    else
      (AgentOrchestrator.format_response d (ExecutorAgent.execute cap d), true)

end Hevo


/-! ## Shared lemmas -/

namespace Hevo

/-- A truthiness-gated optional string survives serialization unchanged
whenever it is not the empty string. -/
theorem keepTruthyS_of_ne (o : Option String) (h : o ≠ some "") :
    keepTruthyS o = o := by
  cases o with
  | none => rfl
  | some s =>
      have hs : s.isEmpty = false := by
        rw [Bool.eq_false_iff]
        intro hs
        exact h (by rw [(String.isEmpty_iff s).mp hs])
      simp [keepTruthyS, hs]

/-- A falsy optional string is dropped by serialization. -/
theorem keepTruthyS_of_falsy (o : Option String) (h : truthyOptS o = false) :
    keepTruthyS o = none := by
  cases o with
  | none => rfl
  | some s =>
      simp only [truthyOptS, Bool.not_eq_false'] at h
      simp [keepTruthyS, h]

/-- Python truthiness of an optional list value. -/
def truthyOptL {α : Type} : Option (List α) → Bool
  | some l => !l.isEmpty
  | none => false

/-- A falsy optional list is dropped by serialization. -/
theorem keepTruthyL_of_falsy {α : Type} (o : Option (List α))
    (h : truthyOptL o = false) : keepTruthyL o = none := by
  cases o with
  | none => rfl
  | some l =>
      simp only [truthyOptL, Bool.not_eq_false'] at h
      simp [keepTruthyL, h]

/-- Serializing then defaulting recovers a present list-valued field (an
omitted empty list decodes back to the empty default). -/
theorem keepTruthyL_getD {α : Type} (l : List α) :
    (keepTruthyL (some l)).getD [] = l := by
  cases l <;> simp [keepTruthyL]

/-- The first-match loop of `check_unsupported` agrees with `List.find?`
over the pattern list. -/
theorem firstMatchMessage_eq_find (l : List (Matcher × String)) (q : String) :
    firstMatchMessage l q =
      (l.find? (fun pm => reSearch pm.1 q)).map (fun pm => pm.2) := by
  induction l with
  | nil => rfl
  | cons pm rest ih =>
      obtain ⟨pat, message⟩ := pm
      by_cases h : reSearch pat q
      · simp [firstMatchMessage, List.find?, h]
      · simp only [Bool.not_eq_true] at h
        simp [firstMatchMessage, List.find?, h, ih]

end Hevo

/-! ## Claims -/

namespace Hevo

/-- C10: a serialized `AgentActionResult` carries the `result` key exactly
on success, the `error` key exactly on failure, and a `message` key only on
success, so success and error payloads never mix. -/
theorem C10_result_payload_separation (r : AgentActionResult) :
    (r.to_dict.result.isSome = r.success) ∧
    (r.to_dict.error.isSome = !r.success) ∧
    (r.to_dict.message.isSome = true → r.success = true) := by
  obtain ⟨s, a, res, msg, err, sugg⟩ := r
  cases s <;> simp [AgentActionResult.to_dict]

/-- C10 witness: the separation at a concrete failure result. -/
theorem C10_result_payload_separation_witness :
    ((AgentActionResult.mkError "pause_pipeline" "API_ERROR" "boom").to_dict.result.isSome = false) ∧
    ((AgentActionResult.mkError "pause_pipeline" "API_ERROR" "boom").to_dict.error.isSome = !false) ∧
    ((AgentActionResult.mkError "pause_pipeline" "API_ERROR" "boom").to_dict.message.isSome = true →
      (AgentActionResult.mkError "pause_pipeline" "API_ERROR" "boom").success = true) :=
  C10_result_payload_separation (AgentActionResult.mkError "pause_pipeline" "API_ERROR" "boom")

/-- C9: `check_unsupported` scans the lowercased query against the ordered
regex/message list and returns the first matching message (None when no
pattern matches); the destination-deletion query yields the non-empty
deletion message, and a plain listing query yields None. -/
theorem C9_check_unsupported_first_match :
    (∀ q : String, check_unsupported q =
      (UNSUPPORTED_PATTERNS.find?
        (fun pm => reSearch pm.1 (pyToLower q))).map (fun pm => pm.2)) ∧
    check_unsupported "please delete my destination" =
      some ("Deleting destinations is not available via the API for safety reasons. " ++
            "Please use the Hevo dashboard to delete destinations.") ∧
    ("Deleting destinations is not available via the API for safety reasons. " ++
     "Please use the Hevo dashboard to delete destinations." : String) ≠ "" ∧
    check_unsupported "list my pipelines" = none :=
  ⟨fun q => firstMatchMessage_eq_find UNSUPPORTED_PATTERNS (pyToLower q),
   rfl, by decide, rfl⟩

end Hevo

namespace Hevo

/-- C8: `validate_pipeline_direction` follows the documented decision
order — empty-argument rejection first, then the destination-only check
(with a message naming the connector), then the known-sources check, then
the known-destinations check, and acceptance otherwise; Snowflake to
BigQuery is invalid while MySQL to Snowflake is valid. -/
theorem C8_validate_pipeline_direction_order :
    (∀ s d : String, (s.isEmpty = true ∨ d.isEmpty = true) →
      validate_pipeline_direction s d =
        (false, "Both source and destination types are required.")) ∧
    (∀ s d : String, s.isEmpty = false → d.isEmpty = false →
      normalize_connector_name s ∈ DESTINATION_ONLY →
      validate_pipeline_direction s d =
        (false, s ++ " can only be used as a destination, not as a source. " ++
          "Hevo does not support " ++ s ++ " as a data source.")) ∧
    (∀ s d : String, s.isEmpty = false → d.isEmpty = false →
      normalize_connector_name s ∉ DESTINATION_ONLY →
      normalize_connector_name s ∉ SOURCES →
      validate_pipeline_direction s d =
        (false, s ++ " is not a supported source type. " ++
          "Please check the Hevo documentation for supported sources.")) ∧
    (∀ s d : String, s.isEmpty = false → d.isEmpty = false →
      normalize_connector_name s ∉ DESTINATION_ONLY →
      normalize_connector_name s ∈ SOURCES →
      normalize_connector_name d ∉ DESTINATIONS →
      validate_pipeline_direction s d =
        (false, d ++ " is not a supported destination type. " ++
          "Supported destinations: " ++
          String.intercalate ", " ((sortStrings DESTINATIONS).take 5) ++ "...")) ∧
    (∀ s d : String, s.isEmpty = false → d.isEmpty = false →
      normalize_connector_name s ∉ DESTINATION_ONLY →
      normalize_connector_name s ∈ SOURCES →
      normalize_connector_name d ∈ DESTINATIONS →
      validate_pipeline_direction s d = (true, "Valid pipeline configuration.")) ∧
    (validate_pipeline_direction "SNOWFLAKE" "BIGQUERY").1 = false ∧
    validate_pipeline_direction "MYSQL" "SNOWFLAKE" =
      (true, "Valid pipeline configuration.") := by
  refine ⟨?_, ?_, ?_, ?_, ?_, by decide, by decide⟩
  · intro s d h
    cases h with
    | inl h => simp [validate_pipeline_direction, h]
    | inr h => simp [validate_pipeline_direction, h]
  · intro s d h1 h2 h3
    simp [validate_pipeline_direction, h1, h2, h3]
  · intro s d h1 h2 h3 h4
    simp [validate_pipeline_direction, h1, h2, h3, h4]
  · intro s d h1 h2 h3 h4 h5
    simp [validate_pipeline_direction, h1, h2, h3, h4, h5]
  · intro s d h1 h2 h3 h4 h5
    simp [validate_pipeline_direction, h1, h2, h3, h4, h5]

/-- C8 witness: the destination-only branch fires on the Snowflake-as-a-
source example, producing the message that names the connector. -/
theorem C8_validate_pipeline_direction_order_witness :
    validate_pipeline_direction "SNOWFLAKE" "BIGQUERY" =
      (false, "SNOWFLAKE" ++ " can only be used as a destination, not as a source. " ++
        "Hevo does not support " ++ "SNOWFLAKE" ++ " as a data source.") :=
  C8_validate_pipeline_direction_order.2.1 "SNOWFLAKE" "BIGQUERY"
    (by decide) (by decide) (by decide)

end Hevo

namespace Hevo

/-- The wire dict of end-to-end scenario 2: an execute directive for
pause_pipeline with empty params. -/
def pauseEmptyDict : DirectiveDict :=
  { directive_type := some "execute", action := some "pause_pipeline"
    params := some [] }

/-- The decoded pause_pipeline directive with empty params. -/
def pauseEmptyDir : ActionDirective :=
  ActionDirective.mkExecute "pause_pipeline" []

/-- C7: decoding the scenario-2 wire dict yields the pause_pipeline
directive with empty params; `validate_directive` rejects it with exactly
the required-identifier message, and the orchestrator then answers with the
validation-failure message without ever invoking the Executor (the second
component records whether `execute` ran), for every capability behaviour. -/
theorem C7_pause_pipeline_missing_identifier :
    ActionDirective.from_dict pauseEmptyDict = some pauseEmptyDir ∧
    ExecutorAgent.validate_directive pauseEmptyDir =
      (false, some "Pipeline/resource name or ID is required for pause_pipeline") ∧
    (∀ cap : CapabilityOracle,
      AgentOrchestrator.process_directive cap pauseEmptyDir =
        ("I couldn\x27t execute that action: " ++
          "Pipeline/resource name or ID is required for pause_pipeline", false)) :=
  ⟨rfl, rfl, fun _ => rfl⟩

/-- C2 counterexample: pause_model is a pause action on models — an
identity-required action in the claim's wording — and it is a registered
action; yet `validate_directive` accepts it with params that contain
neither a name nor an id. -/
theorem C2_counterexample_pause_model :
    ExecutorAgent.validate_directive (ActionDirective.mkExecute "pause_model" []) =
      (true, none) ∧
    ACTIONS.contains "pause_model" = true ∧
    id_actions.contains "pause_model" = false := by
  refine ⟨rfl, by decide, by decide⟩

/-- C2 (amended): the identity-required set is exactly `id_actions`
(get/pause/resume/run on pipelines plus run_model and run_workflow, not
every status/pause/resume/run action on models and workflows); for an
execute directive whose action lies in that set, `validate_directive`
rejects with the required-identifier message whenever the params carry no
truthy "name" and no truthy "id" value. -/
theorem C2_id_actions_require_identifier (d : ActionDirective) (a : String)
    (hty : d.directive_type = .execute) (hact : d.action = some a)
    (hmem : a ∈ id_actions)
    (hname : truthyOptJ (pyGet (pyOrD d.params) "name") = false)
    (hid : truthyOptJ (pyGet (pyOrD d.params) "id") = false) :
    ExecutorAgent.validate_directive d =
      (false, some ("Pipeline/resource name or ID is required for " ++ a)) := by
  obtain ⟨ty, act, pr, cx, q, mp, ir⟩ := d
  simp only at hty hact hname hid
  subst hty
  subst hact
  fin_cases hmem <;>
    simp +decide [ExecutorAgent.validate_directive, truthyOptS, hname, hid]

/-- C2 witness: the amended rejection at the concrete pause_pipeline
directive with empty params. -/
theorem C2_id_actions_require_identifier_witness :
    ExecutorAgent.validate_directive (ActionDirective.mkExecute "pause_pipeline" []) =
      (false, some ("Pipeline/resource name or ID is required for " ++ "pause_pipeline")) :=
  C2_id_actions_require_identifier (ActionDirective.mkExecute "pause_pipeline" [])
    "pause_pipeline" rfl rfl (by decide) rfl rfl

end Hevo

namespace Hevo

/-- Scenario-3 directive: pause_pipeline addressed by name. -/
def pausePipelineX : ActionDirective :=
  ActionDirective.mkExecute "pause_pipeline" [("name", .str "X")]

/-- Scenario-3 capability behaviour: the handler raises a typed APIError
whose message says the pipeline was not found. -/
def capNotFoundX : CapabilityOracle :=
  fun _ _ => .raiseAPI "Pipeline \x27X\x27 not found"

/-- C4 counterexample: when the capability layer raises the typed error
with message Pipeline 'X' not found, the executor does fail with code
NOT_FOUND, but the stored error message is the original message prefixed
with "API error: " (added at the `ActionExecutor.execute` boundary), not
the original capability-layer message itself. -/
theorem C4_counterexample_api_error_prefix :
    (ExecutorAgent.execute capNotFoundX pausePipelineX).success = false ∧
    pyGet (pyOrD (ExecutorAgent.execute capNotFoundX pausePipelineX).error) "code" =
      some (.str "NOT_FOUND") ∧
    pyGet (pyOrD (ExecutorAgent.execute capNotFoundX pausePipelineX).error) "message" =
      some (.str ("API error: " ++ "Pipeline \x27X\x27 not found")) ∧
    ("API error: " ++ "Pipeline \x27X\x27 not found" : String) ≠
      "Pipeline \x27X\x27 not found" :=
  ⟨rfl, rfl, rfl, by decide⟩

/-- C4 (amended): when the capability handler for a registered action
raises a typed APIError with message M, `ExecutorAgent.execute` returns
the failure result whose code is derived by the substring rules from the
message as it crosses the `ActionExecutor` boundary — which is M prefixed
with "API error: " — and whose error message is that prefixed message
(`parseErrorCode` maps a lowercased message containing "not found" to
NOT_FOUND, else "permission" to PERMISSION_DENIED, else "already" to
ALREADY_EXISTS, else API_ERROR). -/
theorem C4_capability_error_conversion (cap : CapabilityOracle)
    (d : ActionDirective) (a M : String)
    (hty : d.directive_type = .execute) (hact : d.action = some a)
    (hne : a.isEmpty = false) (hreg : ACTIONS.contains a = true)
    (hcap : cap a (pyOrD d.params) = .raiseAPI M) :
    ExecutorAgent.execute cap d =
      AgentActionResult.mkError a (parseErrorCode ("API error: " ++ M))
        ("API error: " ++ M) := by
  obtain ⟨ty, act, pr, cx, q, mp, ir⟩ := d
  simp only at hty hact hcap
  subst hty
  subst hact
  have hmem : a ∈ ACTIONS := List.elem_iff.mp hreg
  simp [ExecutorAgent.execute, ExecutorAgent.convert_result,
    ActionExecutor.exec, truthyOptS, hne, hmem, hcap]

/-- C4 witness: scenario 3 — the raised not-found APIError yields a failed
result with code NOT_FOUND and the prefixed message. -/
theorem C4_capability_error_conversion_witness :
    ExecutorAgent.execute capNotFoundX pausePipelineX =
      AgentActionResult.mkError "pause_pipeline" "NOT_FOUND"
        ("API error: " ++ "Pipeline \x27X\x27 not found") :=
  C4_capability_error_conversion capNotFoundX pausePipelineX
    "pause_pipeline" "Pipeline \x27X\x27 not found" rfl rfl rfl (by decide) rfl

/-- A capability oracle for branches that never dispatch. -/
def idleCap : CapabilityOracle := fun _ _ => .raiseExc "unused"

/-- C3 counterexample: an UNSUPPORTED directive with info text X makes the
orchestrator answer "I'm sorry, X", not the info text verbatim (the claim
holds only for INFO_ONLY). -/
theorem C3_counterexample_unsupported_prefix :
    AgentOrchestrator.process_directive idleCap (ActionDirective.mkUnsupported "X") =
      ("I\x27m sorry, X", false) ∧
    ("I\x27m sorry, X" : String) ≠ "X" :=
  ⟨rfl, by decide⟩

/-- C3 (amended): without invoking the Executor, the orchestrator answers
an INFO_ONLY directive with its info text verbatim (empty string when the
text is absent or empty), and an UNSUPPORTED directive with the info text
prefixed by "I'm sorry, " (with a stock apology when the text is absent or
empty); the Boolean component records whether `execute` ran. -/
theorem C3_info_directives_short_circuit (cap : CapabilityOracle)
    (d : ActionDirective) :
    (d.directive_type = .unsupported →
      AgentOrchestrator.process_directive cap d =
        ("I\x27m sorry, " ++ pyOrS d.info_response "that action is not supported.",
         false)) ∧
    (d.directive_type = .info_only →
      AgentOrchestrator.process_directive cap d =
        (pyOrS d.info_response "", false)) := by
  constructor
  · intro h
    simp [AgentOrchestrator.process_directive, h]
  · intro h
    simp [AgentOrchestrator.process_directive, h]

/-- C3 witness: the two short-circuit branches at concrete directives. -/
theorem C3_info_directives_short_circuit_witness :
    AgentOrchestrator.process_directive idleCap (ActionDirective.mkUnsupported "X") =
      ("I\x27m sorry, " ++
        pyOrS (ActionDirective.mkUnsupported "X").info_response
          "that action is not supported.", false) ∧
    AgentOrchestrator.process_directive idleCap (ActionDirective.mkInfoOnly "hello") =
      (pyOrS (ActionDirective.mkInfoOnly "hello").info_response "", false) :=
  ⟨(C3_info_directives_short_circuit idleCap (ActionDirective.mkUnsupported "X")).1 rfl,
   (C3_info_directives_short_circuit idleCap (ActionDirective.mkInfoOnly "hello")).2 rfl⟩

end Hevo

namespace Hevo

/-- C5: the Coordinator absorbs every fault into a directive — a raised
LLM exception becomes an UNSUPPORTED directive carrying the error text;
and when no JSON block of the LLM text parses (the extraction front end
yields no candidate), the text heuristics produce CLARIFY with the raw
text as the question when a clarification cue word occurs, else
UNSUPPORTED when a refusal cue word occurs, else INFO_ONLY with the raw
text as the response.  `process` is total, so no exception ever reaches
the caller. -/
theorem C5_coordinator_never_throws (extract : String → List DirectiveDict) :
    (∀ e : String,
      CoordinatorAgent.process extract (.exc e) =
        ActionDirective.mkUnsupported
          ("I\x27m having trouble understanding right now. Error: " ++ e)) ∧
    (∀ t : String, extract t = [] →
      (clarification_cues.any (fun q => strContains (pyToLower t) q) = true →
        CoordinatorAgent.process extract (.ok t) =
          ActionDirective.mkClarify t ["unknown"]) ∧
      (clarification_cues.any (fun q => strContains (pyToLower t) q) = false →
        unsupported_cues.any (fun u => strContains (pyToLower t) u) = true →
          CoordinatorAgent.process extract (.ok t) =
            ActionDirective.mkUnsupported t) ∧
      (clarification_cues.any (fun q => strContains (pyToLower t) q) = false →
        unsupported_cues.any (fun u => strContains (pyToLower t) u) = false →
          CoordinatorAgent.process extract (.ok t) =
            ActionDirective.mkInfoOnly t)) := by
  refine ⟨fun e => rfl, fun t hext => ⟨?_, ?_, ?_⟩⟩
  · intro hclar
    simp [CoordinatorAgent.process, CoordinatorAgent.parse_directive, hext, hclar]
  · intro hclar hunsup
    simp [CoordinatorAgent.process, CoordinatorAgent.parse_directive, hext,
      hclar, hunsup]
  · intro hclar hunsup
    simp [CoordinatorAgent.process, CoordinatorAgent.parse_directive, hext,
      hclar, hunsup]

/-- Extraction front end that finds no JSON candidate. -/
def noJsonExtract : String → List DirectiveDict := fun _ => []

/-- C5 witness: scenario 4 (a raised transport exception) and scenario 5
(unparseable text containing a clarification cue). -/
theorem C5_coordinator_never_throws_witness :
    CoordinatorAgent.process noJsonExtract (.exc "timeout") =
      ActionDirective.mkUnsupported
        ("I\x27m having trouble understanding right now. Error: " ++ "timeout") ∧
    CoordinatorAgent.process noJsonExtract
        (.ok "Hmm, could you clarify the pipeline?") =
      ActionDirective.mkClarify "Hmm, could you clarify the pipeline?" ["unknown"] :=
  ⟨(C5_coordinator_never_throws noJsonExtract).1 "timeout",
   ((C5_coordinator_never_throws noJsonExtract).2
      "Hmm, could you clarify the pipeline?" rfl).1 (by decide)⟩

end Hevo

namespace Hevo

set_option maxHeartbeats 1000000 in
/-- C6: with no parameters supplied, `validate_action` reports as missing
exactly the required-parameter list of every implemented registry action
(the name/id substitution removes nothing from an empty mapping); and for
every action and parameter mapping, providing a "name" key or an "id" key
satisfies the required constraint for both of those parameters, so neither
ever appears in the missing list. -/
theorem C6_validate_action_missing_params :
    (∀ a ∈ CAPABILITIES, a.implemented = true →
      (validate_action a.name []).2.2 =
        a.parameters.filter (fun p => p.required)) ∧
    (∀ (action_name : String) (provided : PDict),
      (pyHasKey provided "name" = true ∨ pyHasKey provided "id" = true) →
      ∀ p ∈ get_missing_prerequisites action_name provided,
        p.name ≠ "name" ∧ p.name ≠ "id") := by
  constructor
  · decide
  · intro nm provided h p hp
    have hmp : missingParam provided p = true := by
      simp only [get_missing_prerequisites] at hp
      cases hfind : get_action_definition nm with
      | none => rw [hfind] at hp; simp at hp
      | some action =>
          rw [hfind] at hp
          exact (List.mem_filter.mp hp).2
    constructor
    · intro heq
      simp [missingParam, heq] at hmp
      rcases h with h | h <;> simp_all
    · intro heq
      simp [missingParam, heq] at hmp
      rcases h with h | h <;> simp_all

/-- C6 witness: the delete_pipeline entry with no parameters reports its
two required parameters missing; with a name supplied, the required id is
satisfied by substitution and the leftover missing parameter is neither
name nor id. -/
theorem C6_validate_action_missing_params_witness :
    (validate_action "delete_pipeline" []).2.2 =
      ([⟨"id", true⟩, ⟨"name", false⟩, ⟨"confirmed", true⟩] :
        List Parameter).filter (fun p => p.required) ∧
    (("confirmed" : String) ≠ "name" ∧ ("confirmed" : String) ≠ "id") :=
  ⟨C6_validate_action_missing_params.1
     ⟨"delete_pipeline", [⟨"id", true⟩, ⟨"name", false⟩, ⟨"confirmed", true⟩], true⟩
     (by decide) rfl,
   C6_validate_action_missing_params.2 "delete_pipeline" [("name", .str "x")]
     (Or.inl (by decide)) ⟨"confirmed", true⟩ (by decide)⟩

end Hevo

namespace Hevo

/-- Equality on the fields relevant to the first directive's tag (the
claim's comparison notion): action/params/context for EXECUTE,
question/missing_params for CLARIFY, info_response for UNSUPPORTED and
INFO_ONLY, always including the tag itself. -/
def relevantEq (d d' : ActionDirective) : Prop :=
  d'.directive_type = d.directive_type ∧
  match d.directive_type with
  | .execute => d'.action = d.action ∧ d'.params = d.params ∧ d'.context = d.context
  | .clarify => d'.question = d.question ∧ d'.missing_params = d.missing_params
  | .unsupported => d'.info_response = d.info_response
  | .info_only => d'.info_response = d.info_response

/-- Decoding the serialization succeeds and recovers the directive on the
fields relevant to its tag. -/
def decodesRelevantly (d : ActionDirective) : Prop :=
  match ActionDirective.from_dict d.to_dict with
  | some d' => relevantEq d d'
  | none => False

/-- The serialized dict carries no key belonging to another tag. -/
def tagKeysOnly (dd : DirectiveDict) : DirectiveType → Prop
  | .execute => dd.question = none ∧ dd.missing_params = none ∧ dd.info_response = none
  | .clarify => dd.action = none ∧ dd.params = none ∧ dd.context = none ∧
      dd.info_response = none
  | .unsupported => dd.action = none ∧ dd.params = none ∧ dd.context = none ∧
      dd.question = none ∧ dd.missing_params = none
  | .info_only => dd.action = none ∧ dd.params = none ∧ dd.context = none ∧
      dd.question = none ∧ dd.missing_params = none

/-- A directive is canonical for its tag when its relevant optional strings
are not the (falsy, hence dropped) empty string, its relevant collections
are present, and the fields of the other tags are falsy.  Every directive
built by the four factory constructors is canonical. -/
def canonicalFor (d : ActionDirective) : Prop :=
  match d.directive_type with
  | .execute =>
      d.action ≠ some "" ∧ d.context ≠ some "" ∧ d.params.isSome = true ∧
      truthyOptS d.question = false ∧ truthyOptL d.missing_params = false ∧
      truthyOptS d.info_response = false
  | .clarify =>
      d.question ≠ some "" ∧ d.missing_params.isSome = true ∧
      truthyOptS d.action = false ∧ truthyOptL d.params = false ∧
      truthyOptS d.context = false ∧ truthyOptS d.info_response = false
  | .unsupported =>
      d.info_response ≠ some "" ∧
      truthyOptS d.action = false ∧ truthyOptL d.params = false ∧
      truthyOptS d.context = false ∧ truthyOptS d.question = false ∧
      truthyOptL d.missing_params = false
  | .info_only =>
      d.info_response ≠ some "" ∧
      truthyOptS d.action = false ∧ truthyOptL d.params = false ∧
      truthyOptS d.context = false ∧ truthyOptS d.question = false ∧
      truthyOptL d.missing_params = false

/-- A CLARIFY directive whose question is the (falsy) empty string and
which carries a stray EXECUTE field. -/
def c1cex : ActionDirective :=
  { directive_type := .clarify, action := some "a", params := some []
    question := some "", missing_params := some [] }

/-- What `from_dict (to_dict c1cex)` actually produces: the empty-string
question was dropped and came back as None. -/
def c1dec : ActionDirective :=
  { directive_type := .clarify, action := some "a", params := some []
    question := none, missing_params := some [] }

/-- C1 counterexample: serialization drops the falsy question of `c1cex`,
so decoding does not recover the directive on a CLARIFY-relevant field;
and its `to_dict` output carries the EXECUTE-tag key `action`. -/
theorem C1_counterexample_falsy_fields :
    ActionDirective.from_dict c1cex.to_dict = some c1dec ∧
    ¬ relevantEq c1cex c1dec ∧
    c1cex.to_dict.action = some "a" := by
  refine ⟨rfl, ?_, rfl⟩
  intro h
  have hq : c1dec.question = c1cex.question := h.2.1
  simp [c1cex, c1dec] at hq

set_option maxHeartbeats 1000000 in
/-- C1 (amended): `from_dict` succeeds on a dict holding nothing but a
valid `directive_type`; and for every directive that is canonical for its
tag — relevant optional strings non-empty when present, relevant
collections present, other-tag fields falsy — decoding the serialization
recovers the directive on the fields relevant to its tag, and the
serialized dict contains no key of another tag.  (The counterexample shows
the canonicity hypothesis is needed: falsy payload values are dropped by
`to_dict` and truthy foreign-tag fields are emitted.) -/
theorem C1_directive_round_trip :
    (∀ ty : DirectiveType,
      (ActionDirective.from_dict { directive_type := some ty.value }).isSome = true) ∧
    (∀ d : ActionDirective, canonicalFor d →
      decodesRelevantly d ∧ tagKeysOnly d.to_dict d.directive_type) := by
  constructor
  · intro ty
    cases ty <;> rfl
  · intro d hc
    obtain ⟨ty, act, pr, cx, q, mp, ir⟩ := d
    cases ty with
    | execute =>
        obtain ⟨h1, h2, h3, h4, h5, h6⟩ := hc
        simp only at h1 h2 h3 h4 h5 h6
        obtain ⟨l, rfl⟩ := Option.isSome_iff_exists.mp h3
        constructor
        · simp [decodesRelevantly, ActionDirective.to_dict,
            ActionDirective.from_dict, DirectiveType.value,
            DirectiveType.ofValue?, relevantEq,
            keepTruthyS_of_ne _ h1, keepTruthyS_of_ne _ h2, keepTruthyL_getD]
        · simp [ActionDirective.to_dict, tagKeysOnly,
            keepTruthyS_of_falsy _ h4, keepTruthyL_of_falsy _ h5,
            keepTruthyS_of_falsy _ h6]
    | clarify =>
        obtain ⟨h1, h2, h3, h4, h5, h6⟩ := hc
        simp only at h1 h2 h3 h4 h5 h6
        obtain ⟨l, rfl⟩ := Option.isSome_iff_exists.mp h2
        constructor
        · simp [decodesRelevantly, ActionDirective.to_dict,
            ActionDirective.from_dict, DirectiveType.value,
            DirectiveType.ofValue?, relevantEq,
            keepTruthyS_of_ne _ h1, keepTruthyL_getD]
        · simp [ActionDirective.to_dict, tagKeysOnly,
            keepTruthyS_of_falsy _ h3, keepTruthyL_of_falsy _ h4,
            keepTruthyS_of_falsy _ h5, keepTruthyS_of_falsy _ h6]
    | unsupported =>
        obtain ⟨h1, h2, h3, h4, h5, h6⟩ := hc
        simp only at h1 h2 h3 h4 h5 h6
        constructor
        · simp [decodesRelevantly, ActionDirective.to_dict,
            ActionDirective.from_dict, DirectiveType.value,
            DirectiveType.ofValue?, relevantEq, keepTruthyS_of_ne _ h1]
        · simp [ActionDirective.to_dict, tagKeysOnly,
            keepTruthyS_of_falsy _ h2, keepTruthyL_of_falsy _ h3,
            keepTruthyS_of_falsy _ h4, keepTruthyS_of_falsy _ h5,
            keepTruthyL_of_falsy _ h6]
    | info_only =>
        obtain ⟨h1, h2, h3, h4, h5, h6⟩ := hc
        simp only at h1 h2 h3 h4 h5 h6
        constructor
        · simp [decodesRelevantly, ActionDirective.to_dict,
            ActionDirective.from_dict, DirectiveType.value,
            DirectiveType.ofValue?, relevantEq, keepTruthyS_of_ne _ h1]
        · simp [ActionDirective.to_dict, tagKeysOnly,
            keepTruthyS_of_falsy _ h2, keepTruthyL_of_falsy _ h3,
            keepTruthyS_of_falsy _ h4, keepTruthyS_of_falsy _ h5,
            keepTruthyL_of_falsy _ h6]

/-- C1 witness: the amended round trip at a concrete factory-built CLARIFY
directive, and minimal-dict decoding at the clarify tag. -/
theorem C1_directive_round_trip_witness :
    (ActionDirective.from_dict
      { directive_type := some DirectiveType.clarify.value }).isSome = true ∧
    decodesRelevantly (ActionDirective.mkClarify "Which pipeline?" ["name"]) ∧
    tagKeysOnly (ActionDirective.mkClarify "Which pipeline?" ["name"]).to_dict
      .clarify :=
  ⟨C1_directive_round_trip.1 .clarify,
   (C1_directive_round_trip.2 (ActionDirective.mkClarify "Which pipeline?" ["name"])
      (by constructor <;> simp [ActionDirective.mkClarify, truthyOptS, truthyOptL])).1,
   (C1_directive_round_trip.2 (ActionDirective.mkClarify "Which pipeline?" ["name"])
      (by constructor <;> simp [ActionDirective.mkClarify, truthyOptS, truthyOptL])).2⟩

end Hevo
